import Mathlib

/-!
Shallow embedding of the data-preparation step and the view aggregators of
`src/app.py` (Madrid 2024 traffic-accident dashboard).

The preparer `load_data` (app.py lines 86-119) is modelled row-wise:
`prepRow` performs, on one record, exactly the per-element work that the
pandas column operations perform on every element, and `loadRows` maps it
over the list of raw records, propagating the date-parse error that
`pd.to_datetime(df["fecha"], dayfirst=True)` raises (default
`errors="raise"`).  The coordinate reprojection done by the external
`pyproj` transformer is an opaque deterministic function of the two
projected coordinates, so it is taken as a parameter `T`; every theorem
below holds for an arbitrary `T`.

The view aggregators (`df_map`, `df_alc`, `df_vul`, the pyramid series)
are modelled as pure functions on the prepared table, one definition per
pandas filter/groupby pipeline.
-/

/-- Character-level split on a separator, modelling the way a fixed-format
string such as `hora` (`%H:%M:%S`) or a day-first date is decomposed into
fields. -/
def splitOnChar (sep : Char) : List Char → List (List Char)
  | [] => [[]]
  | c :: cs =>
    match splitOnChar sep cs with
    | [] => [[c]]
    | g :: gs => if c = sep then [] :: g :: gs else (c :: g) :: gs

/-- Numeric value of a digit string (digits only, most significant first). -/
def digitsVal (cs : List Char) : Nat := cs.foldl (fun n c => n * 10 + (c.toNat - 48)) 0

/-- All characters are ASCII digits. -/
def allDigits (cs : List Char) : Bool := cs.all (fun c => c.isDigit)

/-- A 1- or 2-digit numeric field (as accepted by the `%H`, `%M`, `%S`
directives of the time parser). -/
def parseNat2 (cs : List Char) : Option Nat :=
  if 1 ≤ cs.length ∧ cs.length ≤ 2 ∧ allDigits cs = true then some (digitsVal cs) else none

/-- A 4-digit year field. -/
def parseNat4 (cs : List Char) : Option Nat :=
  if cs.length = 4 ∧ allDigits cs = true then some (digitsVal cs) else none

/-- Parse of the `hora` column with format `%H:%M:%S` and `errors="coerce"`
(app.py line 99): an unparsable or out-of-range value becomes `none` (NaT)
instead of raising. -/
def parseTime (s : String) : Option (Nat × Nat × Nat) :=
  match splitOnChar ':' s.data with
  | [hs, ms, ss] =>
    match parseNat2 hs, parseNat2 ms, parseNat2 ss with
    | some h, some m, some sec =>
      if h ≤ 23 ∧ m ≤ 59 ∧ sec ≤ 59 then some (h, m, sec) else none
    | _, _, _ => none
  | _ => none

/-- A calendar date, the result of parsing the `fecha` column. -/
structure Fecha where
  dia : Nat
  mes : Nat
  anio : Nat
deriving DecidableEq

/-- Gregorian leap year. -/
def bisiesto (y : Nat) : Bool := (y % 4 == 0 && y % 100 != 0) || y % 400 == 0

/-- Days in a month, for calendar validation of parsed dates. -/
def diasEnMes (m y : Nat) : Nat :=
  if m = 2 then (if bisiesto y then 29 else 28)
  else if m = 4 ∨ m = 6 ∨ m = 9 ∨ m = 11 then 30
  else 31

/-- Parse of one `fecha` value as a day-first date
(`pd.to_datetime(df["fecha"], dayfirst=True)`, app.py line 98):
`dd/mm/yyyy` with calendar validation.  The pandas call keeps the default
`errors="raise"`, so a `none` here is turned into a load error by
`prepFecha` below. -/
def parseFecha (s : String) : Option Fecha :=
  match splitOnChar '/' s.data with
  | [ds, ms, ys] =>
    match parseNat2 ds, parseNat2 ms, parseNat4 ys with
    | some d, some m, some y =>
      if 1 ≤ m ∧ m ≤ 12 ∧ 1 ≤ d ∧ d ≤ diasEnMes m y then some ⟨d, m, y⟩ else none
    | _, _, _ => none
  | _ => none

/-- Day-of-week index of a date (Zeller-style congruence, 0 = Sunday),
modelling `Series.dt.day_name()`. -/
def diaIdx (f : Fecha) : Nat :=
  let a := (14 - f.mes) / 12
  let y := f.anio - a
  let m := f.mes + 12 * a - 2
  (f.dia + y + y / 4 - y / 100 + y / 400 + 31 * m / 12) % 7

/-- English weekday names indexed by `diaIdx`. -/
def dayNamesEn : List String :=
  ["Sunday", "Monday", "Tuesday", "Wednesday", "Thursday", "Friday", "Saturday"]

/-- English day name of a date (`dt.day_name()`, app.py line 104). -/
def dayNameEn (f : Fecha) : String := dayNamesEn.getD (diaIdx f) "Sunday"

/-- The locale-to-Spanish day-name map `dias_map` (app.py lines 102-103);
names outside the map become missing (`Series.map` semantics). -/
def diasMap (s : String) : Option String :=
  if s = "Monday" then some "Lunes"
  else if s = "Tuesday" then some "Martes"
  else if s = "Wednesday" then some "Miércoles"
  else if s = "Thursday" then some "Jueves"
  else if s = "Friday" then some "Viernes"
  else if s = "Saturday" then some "Sábado"
  else if s = "Sunday" then some "Domingo"
  else none

/-- The ordered weekday vocabulary `orden` (app.py line 106). -/
def ordenDias : List String :=
  ["Lunes", "Martes", "Miércoles", "Jueves", "Viernes", "Sábado", "Domingo"]

/-- `pd.Categorical(values, categories=orden, ordered=True)` (app.py
line 107): a value outside the vocabulary becomes missing. -/
def toCategoriaDia (s : String) : Option String :=
  if ordenDias.contains s then some s else none

/-- One raw record of the semicolon-delimited input file, restricted to the
columns the application reads.  Missing cells are `none`. -/
structure RawRow where
  num_expediente : String
  fecha : Option String
  hora : Option String
  distrito : Option String
  coordenada_x_utm : Option ℚ
  coordenada_y_utm : Option ℚ
  tipo_vehiculo : Option String
  tipo_persona : Option String
  sexo : Option String
  rango_edad : Option String
  lesividad : Option String
  positiva_alcohol : Option String
deriving DecidableEq

/-- One prepared record, after the derivations of `load_data`
(app.py lines 96-119). -/
structure Row where
  num_expediente : String
  fecha : Option Fecha
  hora : Option String
  hora_num : Option Nat
  dia_semana : Option String
  distrito : Option String
  coordenada_x_utm : Option ℚ
  coordenada_y_utm : Option ℚ
  lon : Option ℚ
  lat : Option ℚ
  tipo_vehiculo : Option String
  tipo_persona : Option String
  sexo : Option String
  rango_edad : Option String
  lesividad : String
  positiva_alcohol : Option String
  alcohol : Bool
deriving DecidableEq

/-- Date handling of `pd.to_datetime(df["fecha"], dayfirst=True)`
(app.py line 98): a missing cell passes through as NaT, but an unparsable
non-missing value raises (default `errors="raise"`). -/
def prepFecha (f : Option String) : Except String (Option Fecha) :=
  match f with
  | none => Except.ok none
  | some s =>
    match parseFecha s with
    | some d => Except.ok (some d)
    | none => Except.error "fecha no valida"

/-- The per-record body of `load_data` (app.py lines 96-119), given the
already-checked date and the coordinate transformer `T`
(`Transformer.from_crs("EPSG:25830", "EPSG:4326", always_xy=True)`). -/
def prepRowCore (T : ℚ → ℚ → ℚ × ℚ) (r : RawRow) (fecha : Option Fecha) : Row :=
  let horaDt := r.hora.bind parseTime
  let lonlat : Option ℚ × Option ℚ :=
    match r.coordenada_x_utm, r.coordenada_y_utm with
    | some x, some y => (some (T x y).1, some (T x y).2)
    | _, _ => (none, none)
  { num_expediente := r.num_expediente
    fecha := fecha
    hora := r.hora
    hora_num := horaDt.map (fun t => t.1)
    dia_semana := ((fecha.map dayNameEn).bind diasMap).bind toCategoriaDia
    distrito := r.distrito
    coordenada_x_utm := r.coordenada_x_utm
    coordenada_y_utm := r.coordenada_y_utm
    lon := lonlat.1
    lat := lonlat.2
    tipo_vehiculo := r.tipo_vehiculo
    tipo_persona := r.tipo_persona
    sexo := r.sexo
    rango_edad := r.rango_edad.map (fun s => if s = "Más de 74 años" then "> 74" else s)
    lesividad := r.lesividad.getD "Se desconoce"
    positiva_alcohol := r.positiva_alcohol
    alcohol := r.positiva_alcohol == some "S" }

/-- Preparation of one record: the only failing step is the date parse. -/
def prepRow (T : ℚ → ℚ → ℚ × ℚ) (r : RawRow) : Except String Row :=
  match prepFecha r.fecha with
  | Except.ok f => Except.ok (prepRowCore T r f)
  | Except.error e => Except.error e

/-- `load_data` on the list of data rows of the input file: every row is
prepared in order; a date-parse error anywhere aborts the whole load, as
the column-wise `pd.to_datetime(..., dayfirst=True)` call does. -/
def loadRows (T : ℚ → ℚ → ℚ × ℚ) : List RawRow → Except String (List Row)
  | [] => Except.ok []
  | r :: rs =>
    match prepRow T r, loadRows T rs with
    | Except.ok row, Except.ok rest => Except.ok (row :: rest)
    | Except.error e, _ => Except.error e
    | Except.ok _, Except.error e => Except.error e

/-- A concrete coordinate transformer used to instantiate the parameter `T`
in closed statements (the theorems themselves hold for every `T`). -/
def idT : ℚ → ℚ → ℚ × ℚ := fun x y => (x, y)

/-- The severity labels counted as severe or fatal
(`graves`, app.py lines 217 and 293). -/
def gravesList : List String := ["Ingreso superior a 24 horas", "Fallecido 24 horas"]

/-- Hour-and-coordinate restriction of the spatial view
(`df[df["hora_num"] == hora_mapa].dropna(subset=["lat", "lon"])`,
app.py line 290). -/
def dfMapBase (df : List Row) (h : Nat) : List Row :=
  df.filter (fun r => r.hora_num == some h && r.lat.isSome && r.lon.isSome)

/-- The spatial density view `df_map` (app.py lines 290-296): hour filter,
coordinate dropna, then the scenario filter selected by the radio control
(severe-or-fatal severities, pedestrian rows, or everything). -/
def dfMap (df : List Row) (h : Nat) (escenario : String) : List Row :=
  if escenario = "Sólo graves o mortales" then
    (dfMapBase df h).filter (fun r => gravesList.contains r.lesividad)
  else if escenario = "Sólo atropellos" then
    (dfMapBase df h).filter (fun r => r.tipo_persona == some "Peatón")
  else
    dfMapBase df h

/-- The point set handed to the hexagon layer (`get_position="[lon, lat]"`,
app.py line 305). -/
def mapPoints (df : List Row) (h : Nat) (escenario : String) : List (Option ℚ × Option ℚ) :=
  (dfMap df h escenario).map (fun r => (r.lon, r.lat))

/-- The alcohol/weekend restriction
(`df[(df["alcohol"] == True) & (df["dia_semana"].isin(dias_sel))]`,
app.py line 360); a missing day name is never in the selection. -/
def dfAlc (df : List Row) (sel : List String) : List Row :=
  df.filter (fun r =>
    r.alcohol &&
      (match r.dia_semana with
       | some d => sel.contains d
       | none => false))

/-- The (hour, day) group key of one record; `none` when either component
is missing, in which case pandas `groupby` drops the record. -/
def keyOf (r : Row) : Option (Nat × String) :=
  match r.hora_num, r.dia_semana with
  | some h, some d => some (h, d)
  | _, _ => none

/-- The observed (hour, day) group keys of the alcohol view
(`groupby(["hora_num", "dia_semana"], observed=True)`, app.py line 364). -/
def alcKeys (df : List Row) (sel : List String) : List (Nat × String) :=
  ((dfAlc df sel).filterMap keyOf).dedup

/-- The grouped counts `counts` of the alcohol view (app.py line 364):
one row per observed (hour, day) key with its group size. -/
def alcCounts (df : List Row) (sel : List String) : List ((Nat × String) × Nat) :=
  (alcKeys df sel).map
    (fun k => (k, ((dfAlc df sel).filter (fun r => keyOf r == some k)).length))

/-- The day names for which the line chart draws a series: the distinct
day components of the grouped counts. -/
def alcSeriesDays (df : List Row) (sel : List String) : List String :=
  ((alcKeys df sel).map (fun k => k.2)).dedup

/-- The alcohol view as rendered (app.py lines 363-381): when the filtered
table is empty the explicit empty result (`st.info` branch) is returned
instead of a chart. -/
def alcView (df : List Row) (sel : List String) : Option (List ((Nat × String) × Nat)) :=
  if dfAlc df sel = [] then none else some (alcCounts df sel)

/-- The vehicle restriction `df_vul = df[df["tipo_vehiculo"].isin(vehiculos_sel)]`
(app.py line 426). -/
def dfVul (df : List Row) (sel : List String) : List Row :=
  df.filter (fun r =>
    match r.tipo_vehiculo with
    | some v => sel.contains v
    | none => false)

/-- Number of records of one vehicle type. -/
def countVeh (df : List Row) (v : String) : Nat :=
  (df.filter (fun r => r.tipo_vehiculo == some v)).length

/-- Number of records of one vehicle type with one severity label. -/
def countVehSev (df : List Row) (v s : String) : Nat :=
  (df.filter (fun r => r.tipo_vehiculo == some v && r.lesividad == s)).length

/-- The distinct severity labels observed for one vehicle type (the bars the
percent-normalized histogram draws for that type). -/
def sevObserved (df : List Row) (v : String) : List String :=
  ((df.filter (fun r => r.tipo_vehiculo == some v)).map (fun r => r.lesividad)).dedup

/-- One percentage of the percent-normalized histogram
(`px.histogram(df_vul, y="tipo_vehiculo", color="lesividad", barnorm="percent")`,
app.py lines 430-441): the share of severity `s` among the records of
vehicle type `v`. -/
def pctVehSev (df : List Row) (v s : String) : ℚ :=
  100 * (countVehSev df v s : ℚ) / (countVeh df v : ℚ)

/-- Sum of the percentages of one vehicle type across its observed
severity labels. -/
def pctSumVeh (df : List Row) (v : String) : ℚ :=
  ((sevObserved df v).map (fun s => pctVehSev df v s)).sum

/-- The full sorted set of observed age brackets
(`y_age = sorted(df["rango_edad"].dropna().unique())`, app.py line 550). -/
def yAge (df : List Row) : List String :=
  List.insertionSort (fun a b => a ≤ b) (df.filterMap (fun r => r.rango_edad)).dedup

/-- Number of records of one sex in one age bracket. -/
def countSexoEdad (df : List Row) (sx a : String) : Nat :=
  (df.filter (fun r => r.sexo == some sx && r.rango_edad == some a)).length

/-- One side of the age pyramid
(`df[df["sexo"] == sx].groupby("rango_edad").size().reindex(y_age, fill_value=0)`,
app.py lines 551-552): one count per bracket of `yAge`, zero-filled. -/
def pyramidSeries (df : List Row) (sx : String) : List (String × Nat) :=
  (yAge df).map (fun a => (a, countSexoEdad df sx a))

/-- A raw record with no date, an unparsable time and a negative alcohol
test, used to instantiate loader theorems at a concrete input. -/
def rawA : RawRow :=
  { num_expediente := "A"
    fecha := none
    hora := some "xx"
    distrito := some "Centro"
    coordenada_x_utm := none
    coordenada_y_utm := none
    tipo_vehiculo := none
    tipo_persona := none
    sexo := none
    rango_edad := none
    lesividad := none
    positiva_alcohol := some "N" }

/-- A raw record with a positive alcohol test. -/
def rawS : RawRow := { rawA with num_expediente := "S", positiva_alcohol := some "S" }

/-- A raw record whose `fecha` cell holds a malformed date value. -/
def rawBadFecha : RawRow := { rawA with num_expediente := "X", fecha := some "32/01/2024" }

/-- The prepared form of `rawA`. -/
def rowA : Row := prepRowCore idT rawA none

/-- A prepared row with everything missing or blank, for building concrete
prepared tables. -/
def baseRow : Row :=
  { num_expediente := ""
    fecha := none
    hora := none
    hora_num := none
    dia_semana := none
    distrito := none
    coordenada_x_utm := none
    coordenada_y_utm := none
    lon := none
    lat := none
    tipo_vehiculo := none
    tipo_persona := none
    sexo := none
    rango_edad := none
    lesividad := "Se desconoce"
    positiva_alcohol := none
    alcohol := false }

/-- Pedestrian, severe injury, hour 19, valid coordinates. -/
def rowC1a : Row :=
  { baseRow with
    hora_num := some 19
    lesividad := "Ingreso superior a 24 horas"
    tipo_persona := some "Peatón"
    lon := some 1
    lat := some 2 }

/-- Driver, non-severe injury, hour 19, valid coordinates. -/
def rowC1b : Row :=
  { baseRow with
    hora_num := some 19
    lesividad := "Sin asistencia sanitaria"
    tipo_persona := some "Conductor"
    lon := some 3
    lat := some 4 }

/-- Pedestrian, severe injury, hour 8, valid coordinates. -/
def rowC1c : Row :=
  { baseRow with
    hora_num := some 8
    lesividad := "Fallecido 24 horas"
    tipo_persona := some "Peatón"
    lon := some 5
    lat := some 6 }

/-- The three-row prepared table of the spatial-view scenario. -/
def tblC1 : List Row := [rowC1a, rowC1b, rowC1c]

/-- An alcohol-positive record on a Friday at hour 2. -/
def rowAlcV : Row :=
  { baseRow with alcohol := true, dia_semana := some "Viernes", hora_num := some 2 }

/-- A one-row prepared table for the alcohol view. -/
def tblAlc : List Row := [rowAlcV]

/-- A record of vehicle type Turismo. -/
def rowVehT : Row := { baseRow with tipo_vehiculo := some "Turismo" }

/-- A one-row prepared table for the vehicle-severity view. -/
def tblVeh : List Row := [rowVehT]

/-- A male record in the oldest age bracket. -/
def rowPyr : Row := { baseRow with sexo := some "Hombre", rango_edad := some "> 74" }

/-- A one-row prepared table for the age pyramid. -/
def tblPyr : List Row := [rowPyr]

theorem prepRow_ok_elim (T : ℚ → ℚ → ℚ × ℚ) (r : RawRow) (row : Row)
    (h : prepRow T r = Except.ok row) :
    ∃ f, prepFecha r.fecha = Except.ok f ∧ row = prepRowCore T r f := by
  unfold prepRow at h
  cases hf : prepFecha r.fecha with
  | ok f =>
    rw [hf] at h
    injection h with h
    exact ⟨f, rfl, h.symm⟩
  | error e =>
    rw [hf] at h
    cases h

theorem parseTime_hour_le (s : String) (t : Nat × Nat × Nat)
    (h : parseTime s = some t) : t.1 ≤ 23 := by
  unfold parseTime at h
  split at h
  · split at h
    · split at h
      · rename_i hcond
        injection h with h
        rw [← h]
        exact hcond.1
      · cases h
    · cases h
  · cases h

theorem loadRows_ok (T : ℚ → ℚ → ℚ × ℚ) (rows : List RawRow) :
    ∀ out, loadRows T rows = Except.ok out →
      out.length = rows.length ∧
      ∀ i (hi : i < rows.length) (ho : i < out.length),
        prepRow T (rows.get ⟨i, hi⟩) = Except.ok (out.get ⟨i, ho⟩) := by
  induction rows with
  | nil =>
    intro out h
    unfold loadRows at h
    injection h with h
    subst h
    exact ⟨rfl, fun i hi _ => absurd hi (Nat.not_lt_zero i)⟩
  | cons r rs ih =>
    intro out h
    cases hp : prepRow T r with
    | error e => simp only [loadRows, hp] at h; cases h
    | ok row =>
      cases hl : loadRows T rs with
      | error e => simp only [loadRows, hp, hl] at h; cases h
      | ok rest =>
        simp only [loadRows, hp, hl] at h
        injection h with h
        subst h
        obtain ⟨hlen, hidx⟩ := ih rest hl
        refine ⟨by simp [hlen], ?_⟩
        intro i hi ho
        cases i with
        | zero => simpa using hp
        | succ n =>
          exact hidx n (by simpa using hi) (by simpa using ho)

theorem prepRowCore_fields (T : ℚ → ℚ → ℚ × ℚ) (r : RawRow) (f : Option Fecha) :
    (prepRowCore T r f).num_expediente = r.num_expediente ∧
    (prepRowCore T r f).hora = r.hora ∧
    (prepRowCore T r f).distrito = r.distrito ∧
    (prepRowCore T r f).coordenada_x_utm = r.coordenada_x_utm ∧
    (prepRowCore T r f).coordenada_y_utm = r.coordenada_y_utm ∧
    (prepRowCore T r f).tipo_vehiculo = r.tipo_vehiculo ∧
    (prepRowCore T r f).tipo_persona = r.tipo_persona ∧
    (prepRowCore T r f).sexo = r.sexo ∧
    (prepRowCore T r f).positiva_alcohol = r.positiva_alcohol :=
  ⟨rfl, rfl, rfl, rfl, rfl, rfl, rfl, rfl, rfl⟩

/-- Claim C9: the loader returns exactly one prepared row per accepted raw
row, in the same order — row `i` of the output is the preparation of row
`i` of the input — and the raw columns the preparer does not derive from
(accident reference, raw time string, district, both projected
coordinates, vehicle type, person role, sex and the raw alcohol marker)
are carried over unchanged. -/
theorem load_preserves_rows (T : ℚ → ℚ → ℚ × ℚ) (rows : List RawRow) (out : List Row)
    (h : loadRows T rows = Except.ok out) :
    out.length = rows.length ∧
    ∀ i (hi : i < rows.length) (ho : i < out.length),
      prepRow T (rows.get ⟨i, hi⟩) = Except.ok (out.get ⟨i, ho⟩) ∧
      (out.get ⟨i, ho⟩).num_expediente = (rows.get ⟨i, hi⟩).num_expediente ∧
      (out.get ⟨i, ho⟩).hora = (rows.get ⟨i, hi⟩).hora ∧
      (out.get ⟨i, ho⟩).distrito = (rows.get ⟨i, hi⟩).distrito ∧
      (out.get ⟨i, ho⟩).coordenada_x_utm = (rows.get ⟨i, hi⟩).coordenada_x_utm ∧
      (out.get ⟨i, ho⟩).coordenada_y_utm = (rows.get ⟨i, hi⟩).coordenada_y_utm ∧
      (out.get ⟨i, ho⟩).tipo_vehiculo = (rows.get ⟨i, hi⟩).tipo_vehiculo ∧
      (out.get ⟨i, ho⟩).tipo_persona = (rows.get ⟨i, hi⟩).tipo_persona ∧
      (out.get ⟨i, ho⟩).sexo = (rows.get ⟨i, hi⟩).sexo ∧
      (out.get ⟨i, ho⟩).positiva_alcohol = (rows.get ⟨i, hi⟩).positiva_alcohol := by
  obtain ⟨hlen, hidx⟩ := loadRows_ok T rows out h
  refine ⟨hlen, ?_⟩
  intro i hi ho
  have hp := hidx i hi ho
  obtain ⟨f, _, hrow⟩ := prepRow_ok_elim T (rows.get ⟨i, hi⟩) (out.get ⟨i, ho⟩) hp
  rw [hrow]
  exact ⟨by rw [← hrow]; exact hp, prepRowCore_fields T (rows.get ⟨i, hi⟩) f⟩

/-- The loader evaluated on the one-row file `[rawA]`, witnessing
`load_preserves_rows` at a concrete input. -/
theorem load_preserves_rows_witness :
    ([rowA].length = [rawA].length) ∧
    prepRow idT (([rawA].get ⟨0, Nat.zero_lt_one⟩)) = Except.ok ([rowA].get ⟨0, Nat.zero_lt_one⟩) := by
  obtain ⟨h1, h2⟩ := load_preserves_rows idT [rawA] [rowA] rfl
  exact ⟨h1, (h2 0 Nat.zero_lt_one Nat.zero_lt_one).1⟩

/-- Claim C6: the severity normalization (`fillna("Se desconoce")`,
app.py line 117) turns a missing severity into the literal unknown label
and leaves every non-missing severity value unchanged. -/
theorem lesividad_fillna (T : ℚ → ℚ → ℚ × ℚ) (r : RawRow) (row : Row)
    (h : prepRow T r = Except.ok row) :
    (r.lesividad = none → row.lesividad = "Se desconoce") ∧
    ∀ v, r.lesividad = some v → row.lesividad = v := by
  obtain ⟨f, _, hrow⟩ := prepRow_ok_elim T r row h
  subst hrow
  constructor
  · intro hn
    simp [prepRowCore, hn]
  · intro v hv
    simp [prepRowCore, hv]

/-- `lesividad_fillna` at a concrete record with a missing severity. -/
theorem lesividad_fillna_witness :
    rawA.lesividad = none ∧ rowA.lesividad = "Se desconoce" :=
  ⟨rfl, (lesividad_fillna idT rawA rowA rfl).1 rfl⟩

/-- Claim C7: the derived alcohol flag
(`df['alcohol'] = df['positiva_alcohol'] == 'S'`, app.py line 114) is true
exactly when the raw alcohol-test column equals the positive marker `S`;
every other value, a missing one included, gives `false`. -/
theorem alcohol_flag (T : ℚ → ℚ → ℚ × ℚ) (r : RawRow) (row : Row)
    (h : prepRow T r = Except.ok row) :
    row.alcohol = true ↔ r.positiva_alcohol = some "S" := by
  obtain ⟨f, _, hrow⟩ := prepRow_ok_elim T r row h
  subst hrow
  simp [prepRowCore]

/-- `alcohol_flag` at a concrete record with a positive test marker. -/
theorem alcohol_flag_witness :
    (prepRowCore idT rawS none).alcohol = true :=
  (alcohol_flag idT rawS (prepRowCore idT rawS none) rfl).mpr rfl

/-- Claim C8: the derived hour-of-day (`hora_num`, app.py lines 99-100) is
the hour component of the parsed `%H:%M:%S` time, is missing exactly when
the parse failed, and always lies in `[0, 23]`. -/
theorem hora_num_spec (T : ℚ → ℚ → ℚ × ℚ) (r : RawRow) (row : Row)
    (h : prepRow T r = Except.ok row) :
    row.hora_num = (r.hora.bind parseTime).map (fun t => t.1) ∧
    (r.hora.bind parseTime = none → row.hora_num = none) ∧
    ∀ hh, row.hora_num = some hh → hh ≤ 23 := by
  obtain ⟨f, _, hrow⟩ := prepRow_ok_elim T r row h
  subst hrow
  refine ⟨rfl, ?_, ?_⟩
  · intro hn
    simp [prepRowCore, hn]
  · intro hh hsome
    simp only [prepRowCore] at hsome
    cases hb : r.hora.bind parseTime with
    | none => rw [hb] at hsome; simp at hsome
    | some t =>
      rw [hb] at hsome
      simp at hsome
      cases hr : r.hora with
      | none => rw [hr] at hb; simp at hb
      | some s =>
        rw [hr] at hb
        simp at hb
        rw [← hsome]
        exact parseTime_hour_le s t hb

/-- `hora_num_spec` at a concrete record whose time string is unparsable. -/
theorem hora_num_spec_witness :
    rawA.hora.bind parseTime = none ∧ rowA.hora_num = none :=
  ⟨rfl, (hora_num_spec idT rawA rowA rfl).2.1 rfl⟩

theorem prepFecha_ok_of (f : Option String)
    (h : ∀ s, f = some s → (parseFecha s).isSome = true) :
    ∃ d, prepFecha f = Except.ok d := by
  cases f with
  | none => exact ⟨none, rfl⟩
  | some s =>
    have hs := h s rfl
    cases hp : parseFecha s with
    | none => rw [hp] at hs; cases hs
    | some d => exact ⟨some d, by simp [prepFecha, hp]⟩

theorem prepRow_ok_of (T : ℚ → ℚ → ℚ × ℚ) (r : RawRow)
    (h : ∀ s, r.fecha = some s → (parseFecha s).isSome = true) :
    ∃ row, prepRow T r = Except.ok row := by
  obtain ⟨d, hd⟩ := prepFecha_ok_of r.fecha h
  exact ⟨prepRowCore T r d, by simp [prepRow, hd]⟩

theorem loadRows_ok_of (T : ℚ → ℚ → ℚ × ℚ) (rows : List RawRow)
    (h : ∀ r ∈ rows, ∀ s, r.fecha = some s → (parseFecha s).isSome = true) :
    ∃ out, loadRows T rows = Except.ok out := by
  induction rows with
  | nil => exact ⟨[], rfl⟩
  | cons r rs ih =>
    obtain ⟨row, hrow⟩ := prepRow_ok_of T r (h r (by simp))
    obtain ⟨rest, hrest⟩ := ih (fun x hx s hs => h x (by simp [hx]) s hs)
    exact ⟨row :: rest, by simp [loadRows, hrow, hrest]⟩

/-- Claim C2, counterexample: a single malformed field value — here a
`fecha` cell holding the unparsable date `32/01/2024` — makes the whole
load raise instead of coercing the field to a missing sentinel, because
`pd.to_datetime(df["fecha"], dayfirst=True)` keeps the default
`errors="raise"` (app.py line 98). -/
theorem load_aborts_on_bad_date :
    loadRows idT [rawBadFecha] = Except.error "fecha no valida" := by rfl

/-- Claim C2, amended: malformed time strings, missing coordinates,
unrecognized category labels and missing severities are coerced to
missing/unknown sentinels at field level and never abort the load; only a
non-missing, unparsable date value makes the load raise.  So whenever
every non-missing date cell parses, the load returns a table, whatever
the other fields hold. -/
theorem malformed_fields_coerced (T : ℚ → ℚ → ℚ × ℚ) (rows : List RawRow)
    (hf : ∀ r ∈ rows, ∀ s, r.fecha = some s → (parseFecha s).isSome = true) :
    (∃ out, loadRows T rows = Except.ok out) ∧
    ∀ r row, prepRow T r = Except.ok row →
      (r.hora.bind parseTime = none → row.hora_num = none) ∧
      (r.positiva_alcohol ≠ some "S" → row.alcohol = false) ∧
      (r.lesividad = none → row.lesividad = "Se desconoce") := by
  refine ⟨loadRows_ok_of T rows hf, ?_⟩
  intro r row h
  obtain ⟨f, _, hrow⟩ := prepRow_ok_elim T r row h
  subst hrow
  refine ⟨?_, ?_, ?_⟩
  · intro hn
    simp [prepRowCore, hn]
  · intro hne
    simp [prepRowCore]
    exact hne
  · intro hn
    simp [prepRowCore, hn]

/-- `malformed_fields_coerced` at a concrete one-row file whose time
string is unparsable and whose severity is missing: the load succeeds and
the malformed fields were coerced. -/
theorem malformed_fields_coerced_witness :
    (∃ out, loadRows idT [rawA] = Except.ok out) ∧ rowA.hora_num = none ∧ rowA.lesividad = "Se desconoce" := by
  have h := malformed_fields_coerced idT [rawA]
    (by intro r hr s hs; simp at hr; subst hr; cases hs)
  exact ⟨h.1, (h.2 rawA rowA rfl).1 rfl, (h.2 rawA rowA rfl).2.2 rfl⟩

/-- Claim C1: on the three-row table (pedestrian/severe at hour 19,
driver/non-severe at hour 19, pedestrian/severe at hour 8, all with valid
coordinates), the spatial density view at hour 19 under the
severe-or-fatal scenario keeps exactly the pedestrian/severe record of
hour 19 and returns its single point. -/
theorem spatial_view_scenario :
    dfMap tblC1 19 "Sólo graves o mortales" = [rowC1a] ∧
    mapPoints tblC1 19 "Sólo graves o mortales" = [(some 1, some 2)] := by
  constructor
  · rfl
  · rfl

theorem mem_dfMapBase (df : List Row) (h : Nat) (r : Row) (hr : r ∈ dfMapBase df h) :
    r.hora_num = some h ∧ r.lat.isSome = true ∧ r.lon.isSome = true := by
  have hc := (List.mem_filter.1 hr).2
  simp only [Bool.and_eq_true, beq_iff_eq] at hc
  exact ⟨hc.1.1, hc.1.2, hc.2⟩

theorem mem_dfMap_base (df : List Row) (h : Nat) (esc : String) (r : Row)
    (hr : r ∈ dfMap df h esc) : r ∈ dfMapBase df h := by
  unfold dfMap at hr
  split at hr
  · exact (List.mem_filter.1 hr).1
  · split at hr
    · exact (List.mem_filter.1 hr).1
    · exact hr

/-- Claim C10: every record the spatial density view keeps, for any hour
and any scenario, has its derived hour equal to the selected hour and
both geographic coordinates present; a record whose hour failed to parse
is excluded for every hour and scenario. -/
theorem spatial_view_only_valid (df : List Row) (h : Nat) (esc : String) :
    (∀ r ∈ dfMap df h esc,
      r.hora_num = some h ∧ r.lat.isSome = true ∧ r.lon.isSome = true) ∧
    ∀ r : Row, r.hora_num = none → r ∉ dfMap df h esc := by
  constructor
  · intro r hr
    exact mem_dfMapBase df h r (mem_dfMap_base df h esc r hr)
  · intro r hn hr
    have := (mem_dfMapBase df h r (mem_dfMap_base df h esc r hr)).1
    rw [hn] at this
    cases this

/-- `spatial_view_only_valid` at the concrete table `tblC1`: the kept
record has hour 19 and both coordinates, and `baseRow` (missing hour) is
excluded. -/
theorem spatial_view_only_valid_witness :
    (rowC1a.hora_num = some 19 ∧ rowC1a.lat.isSome = true ∧ rowC1a.lon.isSome = true) ∧
    baseRow ∉ dfMap tblC1 19 "Todo el tráfico" :=
  ⟨(spatial_view_only_valid tblC1 19 "Todo el tráfico").1 rowC1a (by decide),
   (spatial_view_only_valid tblC1 19 "Todo el tráfico").2 baseRow rfl⟩

theorem contains_iff_mem (l : List String) (a : String) : l.contains a = true ↔ a ∈ l :=
  List.elem_iff

theorem keyOf_eq_some (r : Row) (k : Nat × String) :
    keyOf r = some k ↔ r.hora_num = some k.1 ∧ r.dia_semana = some k.2 := by
  unfold keyOf
  cases r.hora_num with
  | none => simp
  | some h =>
    cases r.dia_semana with
    | none => simp
    | some d => simp [Prod.ext_iff, eq_comm]

theorem mem_dfAlc (df : List Row) (sel : List String) (r : Row) :
    r ∈ dfAlc df sel ↔ r ∈ df ∧ r.alcohol = true ∧ ∃ d, r.dia_semana = some d ∧ d ∈ sel := by
  unfold dfAlc
  rw [List.mem_filter]
  constructor
  · rintro ⟨hmem, hcond⟩
    rw [Bool.and_eq_true] at hcond
    obtain ⟨ha, hd⟩ := hcond
    refine ⟨hmem, ha, ?_⟩
    cases hds : r.dia_semana with
    | none => simp [hds] at hd
    | some d =>
      simp only [hds] at hd
      exact ⟨d, rfl, (contains_iff_mem sel d).1 hd⟩
  · rintro ⟨hmem, ha, d, hds, hdsel⟩
    refine ⟨hmem, ?_⟩
    rw [Bool.and_eq_true]
    refine ⟨ha, ?_⟩
    simp only [hds]
    exact (contains_iff_mem sel d).2 hdsel

theorem mem_alcKeys (df : List Row) (sel : List String) (k : Nat × String) :
    k ∈ alcKeys df sel ↔ ∃ r ∈ dfAlc df sel, keyOf r = some k := by
  unfold alcKeys
  rw [List.mem_dedup, List.mem_filterMap]

/-- Claim C3, counterexample: with one alcohol-positive Friday record and
the selection `[Viernes, Sábado]`, the alcohol view returns a non-empty
result whose series cover Friday only — the selected day `Sábado`, which
matches zero alcohol-positive records, gets no count series at all
(`remove_unused_categories` plus `groupby(..., observed=True)`,
app.py lines 361-364), contradicting "one count series per selected
day". -/
theorem alc_view_no_series_for_empty_day :
    ("Sábado" ∈ (["Viernes", "Sábado"] : List String)) ∧
    alcView tblAlc ["Viernes", "Sábado"] ≠ none ∧
    "Sábado" ∉ alcSeriesDays tblAlc ["Viernes", "Sábado"] := by decide

/-- Claim C3, amended: for every prepared table and day selection, the
temporal alcohol-incidence view draws one count series per selected day
that matches at least one alcohol-positive record with a parsed hour — a
selected day with zero matching records yields no series; every emitted
(hour, day) count is positive and equals the number of matching filtered
records, hour/day combinations not emitted match zero records (implicit
zeros); and an empty day selection yields the explicit empty result
rather than an exception or spurious all-zero series. -/
theorem alc_view_series (df : List Row) (sel : List String) :
    (sel = [] → alcView df sel = none) ∧
    (∀ d, d ∈ alcSeriesDays df sel ↔
      ∃ r ∈ df, r.alcohol = true ∧ r.dia_semana = some d ∧ d ∈ sel ∧ r.hora_num.isSome = true) ∧
    (∀ p ∈ alcCounts df sel,
      0 < p.2 ∧ p.2 = ((dfAlc df sel).filter (fun r => keyOf r == some p.1)).length) ∧
    (∀ k : Nat × String, k ∉ alcKeys df sel →
      ((dfAlc df sel).filter (fun r => keyOf r == some k)).length = 0) := by
  refine ⟨?_, ?_, ?_, ?_⟩
  · intro hsel
    subst hsel
    unfold alcView
    have hnil : dfAlc df [] = [] := by
      unfold dfAlc
      rw [List.filter_eq_nil_iff]
      intro r hr
      cases hd : r.dia_semana <;> simp [hd]
    rw [hnil]
    simp
  · intro d
    unfold alcSeriesDays
    rw [List.mem_dedup, List.mem_map]
    constructor
    · rintro ⟨k, hk, rfl⟩
      obtain ⟨r, hr, hkey⟩ := (mem_alcKeys df sel k).1 hk
      obtain ⟨hh, hd⟩ := (keyOf_eq_some r k).1 hkey
      obtain ⟨hmem, ha, d', hd', hdsel⟩ := (mem_dfAlc df sel r).1 hr
      rw [hd] at hd'
      injection hd' with hd'
      refine ⟨r, hmem, ha, hd, ?_, ?_⟩
      · rw [hd']
        exact hdsel
      · rw [hh]
        rfl
    · rintro ⟨r, hmem, ha, hd, hdsel, hsome⟩
      cases hh : r.hora_num with
      | none => rw [hh] at hsome; cases hsome
      | some hhv =>
        refine ⟨(hhv, d), ?_, rfl⟩
        apply (mem_alcKeys df sel (hhv, d)).2
        refine ⟨r, ?_, ?_⟩
        · exact (mem_dfAlc df sel r).2 ⟨hmem, ha, d, hd, hdsel⟩
        · exact (keyOf_eq_some r (hhv, d)).2 ⟨hh, hd⟩
  · intro p hp
    unfold alcCounts at hp
    rw [List.mem_map] at hp
    obtain ⟨k, hk, hpk⟩ := hp
    subst hpk
    constructor
    · obtain ⟨r, hr, hkey⟩ := (mem_alcKeys df sel k).1 hk
      have hrf : r ∈ (dfAlc df sel).filter (fun r => keyOf r == some k) :=
        List.mem_filter.2 ⟨hr, by simp [hkey]⟩
      exact List.length_pos.2 (List.ne_nil_of_mem hrf)
    · rfl
  · intro k hk
    rw [List.length_eq_zero, List.filter_eq_nil_iff]
    intro r hr hbeq
    apply hk
    apply (mem_alcKeys df sel k).2
    exact ⟨r, hr, by simpa using hbeq⟩

/-- `alc_view_series` at concrete inputs: the empty selection yields the
explicit empty result, and a day with a matching record does get a
series. -/
theorem alc_view_series_witness :
    alcView tblAlc [] = none ∧ "Viernes" ∈ alcSeriesDays tblAlc ["Viernes"] :=
  ⟨(alc_view_series tblAlc []).1 rfl,
   ((alc_view_series tblAlc ["Viernes"]).2.1 "Viernes").mpr (by decide)⟩

theorem countVehSev_eq (df : List Row) (v s : String) :
    countVehSev df v s =
      ((df.filter (fun r => r.tipo_vehiculo == some v)).filter (fun r => r.lesividad == s)).length := by
  unfold countVehSev
  rw [List.filter_filter]
  have hpr : (fun r : Row => r.tipo_vehiculo == some v && r.lesividad == s)
      = fun r : Row => r.lesividad == s && (r.tipo_vehiculo == some v) := by
    funext r
    rw [Bool.and_comm]
  rw [hpr]

theorem sum_sev_counts (l : List Row) :
    ((l.map (fun r => r.lesividad)).dedup.map
      (fun b => (l.filter (fun r => r.lesividad == b)).length)).sum = l.length := by
  have h := List.sum_map_count_dedup_eq_length (l.map (fun r => r.lesividad))
  rw [List.length_map] at h
  rw [← h]
  congr 1
  apply List.map_congr_left
  intro b _
  rw [List.count_eq_countP, List.countP_map, List.countP_eq_length_filter]
  rfl

theorem pctSumVeh_eq_100 (df : List Row) (v : String) (hv : 0 < countVeh df v) :
    pctSumVeh df v = 100 := by
  have hne : ((countVeh df v : ℚ)) ≠ 0 := by
    rw [Nat.cast_ne_zero]
    omega
  have key : (((df.filter (fun r => r.tipo_vehiculo == some v)).map (fun r => r.lesividad)).dedup.map
      (fun s => (((df.filter (fun r => r.tipo_vehiculo == some v)).filter
        (fun r => r.lesividad == s)).length : ℚ))).sum
      = ((df.filter (fun r => r.tipo_vehiculo == some v)).length : ℚ) := by
    rw [show (fun s => (((df.filter (fun r => r.tipo_vehiculo == some v)).filter
          (fun r => r.lesividad == s)).length : ℚ))
        = (fun n : ℕ => (n : ℚ)) ∘ (fun s => ((df.filter (fun r => r.tipo_vehiculo == some v)).filter
          (fun r => r.lesividad == s)).length) from rfl]
    rw [← List.map_map]
    rw [← Nat.cast_list_sum]
    rw [sum_sev_counts (df.filter (fun r => r.tipo_vehiculo == some v))]
  unfold pctSumVeh sevObserved
  have hfun : (fun s => pctVehSev df v s)
      = fun s => (100 / (countVeh df v : ℚ)) *
          (((df.filter (fun r => r.tipo_vehiculo == some v)).filter
            (fun r => r.lesividad == s)).length : ℚ) := by
    funext s
    unfold pctVehSev
    rw [countVehSev_eq]
    ring
  rw [hfun, List.sum_map_mul_left, key]
  have hict : ((df.filter (fun r => r.tipo_vehiculo == some v)).length : ℚ) = (countVeh df v : ℚ) := rfl
  rw [hict, div_mul_cancel₀ 100 hne]

/-- Claim C4: the vehicle-severity view keeps only records of the selected
vehicle types (unselected types are excluded entirely), and for every
selected vehicle type present in the filtered table the percentages
across its severity categories sum to exactly 100. -/
theorem vul_pct_sum (df : List Row) (sel : List String) (v : String)
    (hv : 0 < countVeh (dfVul df sel) v) :
    (∀ r ∈ dfVul df sel, ∃ w ∈ sel, r.tipo_vehiculo = some w) ∧
    pctSumVeh (dfVul df sel) v = 100 := by
  constructor
  · intro r hr
    have hc := (List.mem_filter.1 hr).2
    cases ht : r.tipo_vehiculo with
    | none => simp [dfVul, ht] at hc
    | some w =>
      simp only [ht] at hc
      exact ⟨w, (contains_iff_mem sel w).1 hc, rfl⟩
  · exact pctSumVeh_eq_100 (dfVul df sel) v hv

/-- `vul_pct_sum` at a concrete one-row table and selection. -/
theorem vul_pct_sum_witness :
    0 < countVeh (dfVul tblVeh ["Turismo"]) "Turismo" ∧
    pctSumVeh (dfVul tblVeh ["Turismo"]) "Turismo" = 100 :=
  ⟨by decide, (vul_pct_sum tblVeh ["Turismo"] "Turismo" (by decide)).2⟩

theorem mem_yAge (df : List Row) (a : String) :
    a ∈ yAge df ↔ ∃ r ∈ df, r.rango_edad = some a := by
  unfold yAge
  rw [List.Perm.mem_iff (List.perm_insertionSort _ _), List.mem_dedup, List.mem_filterMap]

/-- Claim C5: both pyramid series are indexed by the same fully sorted
list of age brackets `yAge` — exactly the brackets observed anywhere in
the table — and a bracket with zero records for a sex still appears in
that sex's series, with count exactly 0. -/
theorem pyramid_series_aligned (df : List Row) :
    (pyramidSeries df "Hombre").map Prod.fst = yAge df ∧
    (pyramidSeries df "Mujer").map Prod.fst = yAge df ∧
    List.Sorted (fun a b => a ≤ b) (yAge df) ∧
    (∀ a, a ∈ yAge df ↔ ∃ r ∈ df, r.rango_edad = some a) ∧
    (∀ sx a, a ∈ yAge df →
      (∀ r ∈ df, ¬(r.sexo = some sx ∧ r.rango_edad = some a)) →
      (a, 0) ∈ pyramidSeries df sx) := by
  refine ⟨?_, ?_, ?_, mem_yAge df, ?_⟩
  · unfold pyramidSeries
    rw [List.map_map,
      show (Prod.fst ∘ fun a => (a, countSexoEdad df "Hombre" a)) = id from rfl,
      List.map_id]
  · unfold pyramidSeries
    rw [List.map_map,
      show (Prod.fst ∘ fun a => (a, countSexoEdad df "Mujer" a)) = id from rfl,
      List.map_id]
  · exact List.sorted_insertionSort _ _
  · intro sx a hmem hnone
    have hzero : countSexoEdad df sx a = 0 := by
      unfold countSexoEdad
      rw [List.length_eq_zero, List.filter_eq_nil_iff]
      intro r hr hb
      rw [Bool.and_eq_true, beq_iff_eq, beq_iff_eq] at hb
      exact hnone r hr hb
    unfold pyramidSeries
    exact List.mem_map.2 ⟨a, hmem, by rw [hzero]⟩

/-- `pyramid_series_aligned` at a concrete one-row table: the bracket of
the male record appears in the female series with count 0. -/
theorem pyramid_series_aligned_witness :
    ("> 74" ∈ yAge tblPyr) ∧ ("> 74", 0) ∈ pyramidSeries tblPyr "Mujer" := by
  have h := pyramid_series_aligned tblPyr
  have hmem : "> 74" ∈ yAge tblPyr :=
    (h.2.2.2.1 "> 74").mpr ⟨rowPyr, by decide, rfl⟩
  exact ⟨hmem, h.2.2.2.2 "Mujer" "> 74" hmem (by decide)⟩
